import Mathlib

set_option maxRecDepth 4000

/-!
Verification development for the calendar tool server
(`src/google_calendar.py`, `src/server.py`).

Python strings are modeled as `List Char`; Python `datetime` instants as
`Int` epoch seconds (UTC); civil dates as `Int` rata-die day counts.
Fallible Python code returns `Except PyExc`.
-/

/-! ## Python string helpers -/

/-- Python `str.upper()` (ASCII fragment used by the source). -/
def pyUpper (s : List Char) : List Char := s.map Char.toUpper

/-- Python `str.lower()` (ASCII fragment used by the source). -/
def pyLower (s : List Char) : List Char := s.map Char.toLower

/-- Python `str.strip()`: drop whitespace at both ends. -/
def pyStrip (s : List Char) : List Char :=
  ((s.dropWhile Char.isWhitespace).reverse.dropWhile Char.isWhitespace).reverse

/-- Python `needle in hay` substring test. -/
def pyIn (needle hay : List Char) : Bool := decide (List.IsInfix needle hay)

/-! ## Decimal formatting (used by `strftime` / `date.isoformat`) -/

/-- The decimal digit character for `n < 10`. -/
def digitChar (n : Nat) : Char := Char.ofNat (48 + n)

/-- Decimal digits of `n`, most significant first; `fuel` bounds the
recursion depth (`fuel = n` always suffices since `n / 10 < n`). -/
def natToDigitsAux : Nat → Nat → List Char
  | 0, n => [digitChar n]
  | fuel + 1, n =>
    if n < 10 then [digitChar n]
    else natToDigitsAux fuel (n / 10) ++ [digitChar (n % 10)]

/-- Decimal digits of `n`, most significant first. -/
def natToDigits (n : Nat) : List Char := natToDigitsAux n n

/-- Zero-padded decimal rendering of `n` to width `w`. -/
def padNum (w : Nat) (n : Nat) : List Char :=
  let ds := natToDigits n
  List.replicate (w - ds.length) '0' ++ ds

/-! ## Proleptic Gregorian calendar arithmetic

`civilFromDays`/`daysFromCivil` convert between days-since-1970-01-01 and
civil `(year, month, day)` triples; this is the arithmetic underlying the
Python `datetime`/`date` values the source manipulates. -/

/-- Civil date `(y, m, d)` of rata-die day `z` (days since 1970-01-01). -/
def civilFromDays (z : Int) : Int × Int × Int :=
  let zs := z + 719468
  let era := zs.fdiv 146097
  let doe := zs - era * 146097
  let yoe := (doe - doe.fdiv 1460 + doe.fdiv 36524 - doe.fdiv 146096).fdiv 365
  let y := yoe + era * 400
  let doy := doe - (365 * yoe + yoe.fdiv 4 - yoe.fdiv 100)
  let mp := (5 * doy + 2).fdiv 153
  let d := doy - (153 * mp + 2).fdiv 5 + 1
  let m := mp + (if mp < 10 then 3 else -9)
  (y + (if m ≤ 2 then 1 else 0), m, d)

/-- Rata-die day count of the civil date `(y, m, d)`. -/
def daysFromCivil (y m d : Int) : Int :=
  let ya := y - (if m ≤ 2 then 1 else 0)
  let era := ya.fdiv 400
  let yoe := ya - era * 400
  let doy := (153 * (m + (if 2 < m then -3 else 9)) + 2).fdiv 5 + d - 1
  let doe := yoe * 365 + yoe.fdiv 4 - yoe.fdiv 100 + doy
  era * 146097 + doe - 719468

/-- `strftime("%Y%m%dT%H%M%SZ")` of the UTC instant `t` (epoch seconds):
compact UTC timestamp `YYYYMMDDThhmmssZ`. -/
def formatCompactUTC (t : Int) : List Char :=
  let days := t.fdiv 86400
  let sod := (t - days * 86400).toNat
  let c := civilFromDays days
  padNum 4 c.1.toNat ++ padNum 2 c.2.1.toNat ++ padNum 2 c.2.2.toNat ++ ['T'] ++
    padNum 2 (sod / 3600) ++ padNum 2 (sod % 3600 / 60) ++ padNum 2 (sod % 60) ++ ['Z']

/-- `date.isoformat()`: `YYYY-MM-DD` rendering of rata-die day `d`. -/
def formatDateISO (d : Int) : List Char :=
  let c := civilFromDays d
  padNum 4 c.1.toNat ++ ['-'] ++ padNum 2 c.2.1.toNat ++ ['-'] ++ padNum 2 c.2.2.toNat

/-! ## The UNTIL boundary and RRULE rewrite of `update_following_instances`
(`src/google_calendar.py` lines 470-492). -/

/-- `update_following_instances` lines 471-473: the `UNTIL` value computed
from the parsed `splitStart` instant `t` (epoch seconds, after
`astimezone(timezone.utc)`): one second earlier, compact UTC form. -/
def formatUntil (t : Int) : List Char := formatCompactUTC (t - 1)

/-- The literal `"RRULE:"`. -/
def rruleTag : List Char := "RRULE:".data

/-- The literal `"UNTIL="`. -/
def untilTag : List Char := "UNTIL=".data

/-- The literal `"COUNT="`. -/
def countTag : List Char := "COUNT=".data

/-- `line.upper().startswith("RRULE:")`. -/
def isRRuleLine (line : List Char) : Bool := rruleTag.isPrefixOf (pyUpper line)

/-- `p.upper().startswith("UNTIL=")`. -/
def isUntilPart (p : List Char) : Bool := untilTag.isPrefixOf (pyUpper p)

/-- `p.upper().startswith("COUNT=")`. -/
def isCountPart (p : List Char) : Bool := countTag.isPrefixOf (pyUpper p)

/-- Lines 483-487: rewrite one `RRULE:` line — strip the tag, split the rule
on `;` dropping empty parts, drop `UNTIL=`/`COUNT=` clauses, append the new
`UNTIL=` clause, and rejoin. -/
def rewriteRRuleLine (untilStr : List Char) (line : List Char) : List Char :=
  let rule := pyStrip (line.drop rruleTag.length)
  let parts := (rule.splitOn ';').filter (fun p => p ≠ [])
  let kept := parts.filter (fun p => !isUntilPart p && !isCountPart p)
  rruleTag ++ List.intercalate [';'] (kept ++ [untilTag ++ untilStr])

/-- Lines 476-492: trim the recurrence list. Empty list raises
`ValueError("Event is not a recurring series.")`; each `RRULE:` line is
rewritten; if none was found raises
`ValueError("Could not find RRULE in original recurrence.")`. -/
def trimRecurrence (untilStr : List Char) (rec : List (List Char)) :
    Except String (List (List Char)) :=
  if rec = [] then Except.error "Event is not a recurring series."
  else if rec.any isRRuleLine then
    Except.ok (rec.map (fun line =>
      if isRRuleLine line then rewriteRRuleLine untilStr line else line))
  else Except.error "Could not find RRULE in original recurrence."

/-- The clause list of a rewritten `RRULE:` line: the text after the tag,
split on `;`. -/
def clausesOf (line : List Char) : List (List Char) :=
  (line.drop rruleTag.length).splitOn ';'

/-! ## Exceptions and the retry wrapper (`src/google_calendar.py` lines 37-61). -/

/-- The Python exceptions the source distinguishes. For `HttpError`,
`status` is the transport status (absent when neither `status_code` nor
`resp.status` is set), `details` the optional `error_details` message. -/
inductive PyExc where
  | httpError (status : Option Nat) (details : Option String) (msg : String)
  | refreshError (msg : String)
  | valueError (msg : String)
  | typeError (msg : String)
deriving DecidableEq

/-- `exc.__class__.__name__`. -/
def className : PyExc → String
  | .httpError _ _ _ => "HttpError"
  | .refreshError _ => "RefreshError"
  | .valueError _ => "ValueError"
  | .typeError _ => "TypeError"

/-- Line 44: `status and int(status) in (429, 500, 502, 503, 504)`
(Python truthiness: `None` and `0` are falsy). -/
def transientStatus (st : Option Nat) : Bool :=
  match st with
  | none => false
  | some s => decide (s ≠ 0) && (s == 429 || s == 500 || s == 502 || s == 503 || s == 504)

/-- Line 52: the test selecting expired/revoked refresh tokens. -/
def refreshTokenExpiredMsg (m : String) : Bool :=
  pyIn "invalid_grant".data m.data || pyIn "expired".data (pyLower m.data) ||
    pyIn "revoked".data (pyLower m.data)

/-- Lines 53-57: the replacement message for an expired refresh token. -/
def refreshHelpMsg (m : String) : String :=
  "Refresh token has expired or been revoked. Please generate a new refresh token using:\npython3 scripts/get_google_refresh_token.py\n\nOriginal error: " ++ m

/-- Outcome of `_retry`: a returned value, a raised exception, or the loop
falling through after 5 attempts (Python then returns `None`). -/
inductive RetryResult (α : Type) where
  | ok (v : α)
  | raised (e : PyExc)
  | exhausted
deriving DecidableEq

/-- Lines 39-61 of `_retry`: `fn i` is the outcome of the `i`-th call of
`fn`; returns the recorded `time.sleep` arguments and the final outcome.
`backoff` starts at 1 and is doubled (capped at 8) after each sleep. -/
def retryAux {α : Type} (fn : Nat → Except PyExc α) (attempt : Nat) (backoff : Nat) :
    Nat → List Nat × RetryResult α
  | 0 => ([], .exhausted)
  | fuel + 1 =>
    match fn attempt with
    | .ok v => ([], .ok v)
    | .error e =>
      match e with
      | .httpError st d m =>
        if transientStatus st then
          let r := retryAux fn (attempt + 1) (min (backoff * 2) 8) fuel
          (backoff :: r.1, r.2)
        else ([], .raised (.httpError st d m))
      | .refreshError m =>
        if refreshTokenExpiredMsg m then ([], .raised (.refreshError (refreshHelpMsg m)))
        else ([], .raised (.refreshError m))
      | e => ([], .raised e)

/-- `_retry(fn)` with `backoff = 1.0` and `for attempt in range(5)`. -/
def pyRetry {α : Type} (fn : Nat → Except PyExc α) : List Nat × RetryResult α :=
  retryAux fn 0 1 5

/-! ## Calendar resolution (`src/google_calendar.py` lines 86-105). -/

/-- One entry of the `list_calendars` result (`id` and `summary` fields;
`summary` may be absent). -/
structure CalEntry where
  id : List Char
  summary : Option (List Char)
deriving DecidableEq

/-- The per-calendar test of the loop in lines 99-103:
`cal["id"].lower() == qnorm or (cal.get("summary") or "").strip().lower() == qnorm`. -/
def calMatches (qnorm : List Char) (cal : CalEntry) : Bool :=
  pyLower cal.id == qnorm || pyLower (pyStrip (cal.summary.getD [])) == qnorm

/-- `resolve_calendar_id(query)`. `probeOk q` models whether
`service.calendars().get(calendarId=q)` succeeds (all exceptions are
swallowed); `cals` the `list_calendars` result. Returns the resolved id
together with the number of probe calls and of `list_calendars` calls. -/
def resolve_calendar_id (probeOk : List Char → Bool) (cals : List CalEntry)
    (query : Option (List Char)) : List Char × Nat × Nat :=
  match query with
  | none => ("primary".data, 0, 0)
  | some q =>
    if q = [] then ("primary".data, 0, 0)
    else if probeOk q then (q, 1, 0)
    else
      let qnorm := pyLower (pyStrip q)
      match cals.find? (calMatches qnorm) with
      | some cal => (cal.id, 1, 1)
      | none => ("primary".data, 1, 1)

/-! ## Civil-date parsing and the all-day time payloads of `create_event`
(`src/google_calendar.py` lines 179-210). -/

/-- Numeric value of a decimal digit character. -/
def digitVal (c : Char) : Nat := c.toNat - 48

/-- Gregorian leap-year test. -/
def isLeapYear (y : Int) : Bool := (y % 4 == 0 && y % 100 != 0) || y % 400 == 0

/-- Length of month `m` in year `y`. -/
def daysInMonth (y : Int) (m : Nat) : Nat :=
  match m with
  | 1 => 31
  | 2 => if isLeapYear y then 29 else 28
  | 3 => 31
  | 4 => 30
  | 5 => 31
  | 6 => 30
  | 7 => 31
  | 8 => 31
  | 9 => 30
  | 10 => 31
  | 11 => 30
  | 12 => 31
  | _ => 0

/-- `datetime.fromisoformat` on a date-only string: accepts exactly
`YYYY-MM-DD` naming a valid calendar date of year ≥ 1, returning its
rata-die day count; anything else raises (`none`). -/
def parseDateISO (s : List Char) : Option Int :=
  match s with
  | [y1, y2, y3, y4, h1, m1, m2, h2, d1, d2] =>
    if h1 == '-' && h2 == '-' && y1.isDigit && y2.isDigit && y3.isDigit && y4.isDigit &&
        m1.isDigit && m2.isDigit && d1.isDigit && d2.isDigit then
      let y : Int := Int.ofNat (digitVal y1 * 1000 + digitVal y2 * 100 + digitVal y3 * 10 + digitVal y4)
      let m := digitVal m1 * 10 + digitVal m2
      let d := digitVal d1 * 10 + digitVal d2
      if 1 ≤ y && 1 ≤ m && m ≤ 12 && 1 ≤ d && d ≤ daysInMonth y m then
        some (daysFromCivil y (Int.ofNat m) (Int.ofNat d))
      else none
    else none
  | _ => none

/-- `_extract_date` (lines 179-183): `value.split("T", 1)[0]`. -/
def extract_date (value : List Char) : List Char := value.takeWhile (fun c => c != 'T')

/-- A Google time payload: `{"date": d}` or `{"dateTime": dt, "timeZone"?: tz}`. -/
inductive TimePayload where
  | date (d : List Char)
  | dateTime (dt : List Char) (tz : Option (List Char))
deriving DecidableEq

/-- `create_event.time_payloads` (lines 185-210). In the all-day branch the
dates are parsed (a failing end parse falls back to the start date, a
failing start parse raises), the exclusive-end rule `end_dt <= start_dt →
start_dt + 1 day` is applied, and both are emitted as `date` payloads. In
the timed branch a missing end raises and the timezone is attached to both
payloads when truthy. -/
def time_payloads (all_day : Bool) (time_zone : Option (List Char))
    (start_value : List Char) (end_value : Option (List Char)) :
    Except PyExc (TimePayload × TimePayload) :=
  if all_day then
    match parseDateISO (extract_date start_value) with
    | none => Except.error (.valueError "Invalid isoformat string")
    | some start_dt =>
      let end_dt :=
        match end_value with
        | some ev => (parseDateISO (extract_date ev)).getD start_dt
        | none => start_dt
      let end_dt := if end_dt ≤ start_dt then start_dt + 1 else end_dt
      Except.ok (.date (formatDateISO start_dt), .date (formatDateISO end_dt))
  else
    match end_value with
    | none =>
      Except.error (.valueError "end is required unless creating an all-day event (all_day=true).")
    | some ev =>
      let tz := match time_zone with
        | some t => if t.isEmpty then none else some t
        | none => none
      Except.ok (.dateTime start_value tz, .dateTime ev tz)

/-! ## JSON result values and the tool-surface error envelope
(`src/server.py` lines 42-49). -/

/-- JSON-like values returned over the tool surface. -/
inductive Json where
  | jnull
  | jbool (b : Bool)
  | jnum (n : Int)
  | jstr (s : String)
  | jlist (xs : List Json)
  | jobj (fields : List (String × Json))

/-- Field lookup in a JSON object. -/
def jLookup (j : Json) (k : String) : Option Json :=
  match j with
  | .jobj fields => fields.lookup k
  | _ => none

/-- The message `_error_response` selects: for `HttpError` the first
`error_details` message when available, else `str(exc)`. -/
def errMessage : PyExc → String
  | .httpError _ details msg => details.getD msg
  | .refreshError m => m
  | .valueError m => m
  | .typeError m => m

/-- `_error_response` (lines 42-49). -/
def error_response (e : PyExc) : Json :=
  .jobj [("ok", .jbool false),
         ("error", .jobj [("type", .jstr (className e)), ("message", .jstr (errMessage e))])]

/-- The `try/except Exception` boundary shared by every tool function:
a successful body result is returned as is, an exception is mapped through
`_error_response`. -/
def toolWrap (r : Except PyExc Json) : Json :=
  match r with
  | .ok j => j
  | .error e => error_response e

/-- `list_calendars` tool (`src/server.py` lines 67-73): wraps the backend
result as `{"calendars": [...]}`. -/
def tool_list_calendars (backend : Except PyExc (List Json)) : Json :=
  toolWrap (backend.map (fun cals => .jobj [("calendars", .jlist cals)]))

/-! ## Reminder normalization (`src/server.py` lines 52-64 and 127-136)
and the reminders payload of `create_event`
(`src/google_calendar.py` lines 226-261). -/

/-- An element of the `reminders` argument list. Python `float` items,
which `int()` truncates, are represented by the resulting integer. -/
inductive RItem where
  | rint (n : Int)
  | rstr (s : List Char)
  | rother
deriving DecidableEq

/-- The `reminders` tool argument: `None`, a list, a string, or any other
shape. -/
inductive RArg where
  | rnone
  | rlist (xs : List RItem)
  | rstrArg (s : List Char)
  | rotherArg
deriving DecidableEq

/-- Insert `n` into a sorted list. -/
def insertSortedInt (n : Int) : List Int → List Int
  | [] => [n]
  | m :: ms => if n ≤ m then n :: m :: ms else m :: insertSortedInt n ms

/-- Insertion sort, ascending. -/
def sortInts : List Int → List Int
  | [] => []
  | n :: ns => insertSortedInt n (sortInts ns)

/-- Python `sorted({...})`: the ascending list of the distinct elements. -/
def sortedSet (l : List Int) : List Int := sortInts l.dedup

/-- `_normalize_reminder_minutes` (lines 52-64): `None` for a non-list
input; for a list, the sorted deduplicated non-negative integer items
(non-numeric items are skipped). -/
def normalize_reminder_minutes (value : RArg) : Option (List Int) :=
  match value with
  | .rnone => none
  | .rlist xs =>
    some (sortedSet (xs.filterMap (fun item =>
      match item with
      | .rint n => if 0 ≤ n then some n else none
      | _ => none)))
  | _ => none

/-- One entry of a reminders `overrides` list as `create_event` inspects it:
`method` is `o.get("method")` (absent modeled as `none`, `str()`-coerced),
`minutes` is `o.get("minutes")` when numeric. -/
structure OvItem where
  method : Option (List Char)
  minutes : Option Int
deriving DecidableEq

/-- An entry of an overrides list: a dict or anything else (skipped). -/
inductive OvEntry where
  | odict (o : OvItem)
  | onondict
deriving DecidableEq

/-- The value found under `"overrides"` in a reminders dict. -/
inductive GOverrides where
  | glist (xs : List OvEntry)
  | gother
deriving DecidableEq

/-- A reminders dict argument: `useDefault` is present iff the key is, with
its `bool()`-coerced value. -/
structure GRemDict where
  useDefault : Option Bool
  overrides : Option GOverrides
deriving DecidableEq

/-- The `reminders` argument of `google_calendar.create_event`. -/
inductive GRemArg where
  | gnone
  | gbool (b : Bool)
  | glistArg (xs : List OvEntry)
  | gdict (d : GRemDict)
deriving DecidableEq

/-- The reminders payload the `create_event` tool builds from its minutes
list (`src/server.py` lines 128-136): absent when normalization yields
`None`; otherwise `useDefault: false` plus popup overrides when the list is
non-empty. -/
def server_create_reminders (reminders : RArg) : GRemArg :=
  match normalize_reminder_minutes reminders with
  | none => .gnone
  | some ms =>
    .gdict { useDefault := some false,
             overrides :=
               if 0 < ms.length then
                 some (.glist (ms.map (fun m =>
                   .odict { method := some "popup".data, minutes := some m })))
               else none }

/-- A validated reminder override `{method, minutes}`. -/
structure Override where
  method : List Char
  minutes : Int
deriving DecidableEq

/-- The reminders payload `create_event` sends. -/
structure RemPayload where
  useDefault : Option Bool
  overrides : Option (List Override)
deriving DecidableEq

/-- The override cleaning loop (lines 232-238 and 248-254): keep dict
entries whose lowercased method is `email` or `popup` and whose minutes is
numeric. -/
def cleanOverrides (xs : List OvEntry) : List Override :=
  xs.filterMap (fun entry =>
    match entry with
    | .odict o =>
      let method := pyLower (o.method.getD [])
      match o.minutes with
      | some mi =>
        if method == "email".data || method == "popup".data then
          some { method := method, minutes := mi }
        else none
      | none => none
    | .onondict => none)

/-- The `reminders` handling of `google_calendar.create_event`
(lines 227-261): the `body["reminders"]` value, absent when the built
payload is empty. -/
def gc_reminders_payload (reminders : GRemArg) : Option RemPayload :=
  match reminders with
  | .gnone => none
  | .gbool b => some { useDefault := some b, overrides := none }
  | .glistArg xs =>
    let cleaned := cleanOverrides xs
    some { useDefault := some false,
           overrides := if cleaned.isEmpty then none else some cleaned }
  | .gdict d =>
    let withOv : RemPayload :=
      match d.overrides with
      | some (.glist xs) =>
        let cleaned := cleanOverrides xs
        if cleaned.isEmpty then { useDefault := d.useDefault, overrides := none }
        else { useDefault := if d.useDefault.isSome then d.useDefault else some false,
               overrides := some cleaned }
      | _ => { useDefault := d.useDefault, overrides := none }
    if withOv.useDefault.isSome || withOv.overrides.isSome then some withOv else none

/-- The reminder overrides that end up in the event body when the
`create_event` tool is called with `reminders` argument `v`. -/
def createEvent_overrides (v : RArg) : List Override :=
  match gc_reminders_payload (server_create_reminders v) with
  | some p => p.overrides.getD []
  | none => []

/-! ## `update_event` body construction (`src/google_calendar.py`
lines 289-310). -/

/-- Loosely-typed Python values appearing in an `update_event` patch. -/
inductive PVal where
  | pstr (s : List Char)
  | plist (xs : List PVal)
  | pdict (fields : List (String × PVal))
  | pbool (b : Bool)
  | pnone
  | pother

/-- Python truthiness for `PVal`. -/
def pvTruthy : PVal → Bool
  | .pstr s => !s.isEmpty
  | .plist xs => !xs.isEmpty
  | .pdict fs => !fs.isEmpty
  | .pbool b => b
  | .pnone => false
  | .pother => true

/-- `patch.get(k)`: the value under `k`, `None` when absent. -/
def pyDictGet (patch : List (String × PVal)) (k : String) : PVal :=
  (patch.lookup k).getD .pnone

/-- `patch.get("time_zone") or patch.get("timeZone")`. -/
def updateTz (patch : List (String × PVal)) : PVal :=
  let a := pyDictGet patch "time_zone"
  if pvTruthy a then a else pyDictGet patch "timeZone"

/-- The recurrence cleaning loop (lines 298-301): keep stripped non-blank
string entries. -/
def cleanRecurrenceRules (xs : List PVal) : List PVal :=
  xs.filterMap (fun rule =>
    match rule with
    | .pstr s => if !(pyStrip s).isEmpty then some (.pstr (pyStrip s)) else none
    | _ => none)

/-- Python `"T" in v`: substring test on strings, membership on lists,
key test on dicts, `TypeError` otherwise. -/
def containsT : PVal → Except PyExc Bool
  | .pstr s => Except.ok (pyIn "T".data s)
  | .plist xs =>
    Except.ok (xs.any (fun x =>
      match x with
      | .pstr s => decide (s = "T".data)
      | _ => false))
  | .pdict fs => Except.ok (fs.any (fun f => f.1 == "T"))
  | _ => Except.error (.typeError "argument is not iterable")

/-- Lines 307 and 310: build a `start`/`end` body field from a patch value —
`{"dateTime": v, "timeZone"?: tz}` when `"T" in v`, else `{"date": v}`. -/
def timeField (tz : PVal) (v : PVal) : Except PyExc PVal := do
  let hasT ← containsT v
  if hasT then
    Except.ok (.pdict ([("dateTime", v)] ++ (if pvTruthy tz then [("timeZone", tz)] else [])))
  else
    Except.ok (.pdict [("date", v)])

/-- A body entry `[(key, v)]` for a present patch key, `[]` for an absent
one (`if k in patch: body[k] = patch[k]`). -/
def segOf (key : String) (v? : Option PVal) : List (String × PVal) :=
  match v? with
  | some v => [(key, v)]
  | none => []

/-- The `start`/`end` body entry built from a present patch key via
`timeField`, `[]` for an absent one. -/
def timeSeg (tz : PVal) (key : String) (v? : Option PVal) :
    Except PyExc (List (String × PVal)) :=
  match v? with
  | some v => (timeField tz v).map (fun f => [(key, f)])
  | none => Except.ok []

/-- The recurrence body entry (lines 297-303): present only when the patch
holds a `recurrence` list with at least one non-blank string entry. -/
def recurrenceSeg (v? : Option PVal) : List (String × PVal) :=
  match v? with
  | some (.plist xs) =>
    let cleaned := cleanRecurrenceRules xs
    if !cleaned.isEmpty then [("recurrence", PVal.plist cleaned)] else []
  | _ => []

/-- `update_event` body construction (lines 289-310): only patch keys that
are present map to body fields, in source insertion order. -/
def update_event_body (patch : List (String × PVal)) :
    Except PyExc (List (String × PVal)) := do
  let tz := updateTz patch
  let seg5 ← timeSeg tz "start" (patch.lookup "start")
  let seg6 ← timeSeg tz "end" (patch.lookup "end")
  pure (segOf "summary" (patch.lookup "summary") ++
        segOf "description" (patch.lookup "description") ++
        segOf "location" (patch.lookup "location") ++
        recurrenceSeg (patch.lookup "recurrence") ++ seg5 ++ seg6)

/-- The test selecting the recurrence entries `update_event` keeps: a
string with non-blank strip. -/
def isNonBlankStr : PVal → Bool
  | .pstr s => !(pyStrip s).isEmpty
  | _ => false

/-- The test selecting the reminder items `_normalize_reminder_minutes`
reads: numeric (`isinstance(item, (int, float))`). -/
def isNumericItem : RItem → Bool
  | .rint _ => true
  | _ => false

/-! ## The series split `update_following_instances`
(`src/google_calendar.py` lines 430-532) and its tool wrapper
(`src/server.py` lines 240-256). -/

/-- The original series event as fetched: `start`/`end` carry a parsed
`dateTime` instant (epoch seconds) when present (`none` models an all-day
`date` payload). -/
structure GcalEvent where
  startDateTime : Option Int
  endDateTime : Option Int
  startTimeZone : Option (List Char)
  endTimeZone : Option (List Char)
  recurrence : List (List Char)
  summary : Option (List Char)
  description : Option (List Char)
  location : Option (List Char)
deriving DecidableEq

/-- The body of the successor series built in lines 502-519. -/
structure NewBody where
  summary : Option (List Char)
  description : Option (List Char)
  location : Option (List Char)
  startDateTime : Int
  endDateTime : Int
  startTimeZone : Option (List Char)
  endTimeZone : Option (List Char)
  recurrence : List (List Char)
deriving DecidableEq

/-- The remote mutations the split performs, with their payloads. -/
inductive Mutation where
  | updateOriginal (trimmedRecurrence : List (List Char))
  | insertNew (body : NewBody)
deriving DecidableEq

/-- The caller's `change_patch` (`summary`/`description`/`location` keys;
`none` = key absent). -/
structure ChangePatch where
  summary : Option (List Char)
  description : Option (List Char)
  location : Option (List Char)
deriving DecidableEq

/-- The created successor series as the remote returns it. -/
structure CreatedSeries where
  id : Option String
  summary : Option String
  startDateTime : Option String
  endDateTime : Option String
  recurrence : Option (List String)
deriving DecidableEq

/-- JSON of an optional string, `null` when absent. -/
def optStrJson : Option String → Json
  | some s => .jstr s
  | none => .jnull

/-- The success envelope of `update_following_instances` (lines 522-532). -/
def projectNewSeries (calendarId : String) (c : CreatedSeries) : Json :=
  .jobj [("ok", .jbool true),
         ("newRecurringEvent", .jobj
           [("calendarId", .jstr calendarId),
            ("eventId", optStrJson c.id),
            ("summary", optStrJson c.summary),
            ("start", optStrJson c.startDateTime),
            ("end", optStrJson c.endDateTime),
            ("recurrence", match c.recurrence with
              | some xs => .jlist (xs.map Json.jstr)
              | none => .jnull)])]

/-- Outcomes of the three remote calls the split performs: the initial
fetch, the trimming update (`none` = success), and the insert. -/
structure SplitRemote where
  getResult : Except PyExc GcalEvent
  updateResult : Option PyExc
  insertResult : Except PyExc CreatedSeries

/-- Truthiness filter for a timezone field (`if start_obj.get("timeZone")`). -/
def truthyTz (t : Option (List Char)) : Option (List Char) :=
  match t with
  | some s => if s.isEmpty then none else some s
  | none => none

/-- `update_following_instances` (lines 430-532): performs the fetch, the
dateTime check, the UNTIL computation, the recurrence trim, the trimming
update and the insert, in source order; returns the remote mutations that
were issued together with the result or the raised exception.
`targetStart` is the parsed `target_instance_start` instant. -/
def update_following_instances_model (calendarId : String) (remote : SplitRemote)
    (targetStart : Int) (change : ChangePatch) (new_recurrence : List (List Char)) :
    List Mutation × Except PyExc Json :=
  match remote.getResult with
  | .error e => ([], .error e)
  | .ok original =>
    match original.startDateTime, original.endDateTime with
    | some sdt, some edt =>
      let duration := edt - sdt
      let until_str := formatUntil targetStart
      match trimRecurrence until_str original.recurrence with
      | .error m => ([], .error (.valueError m))
      | .ok new_rec =>
        match remote.updateResult with
        | some e => ([], .error e)
        | none =>
          let newBody : NewBody := {
            summary := match change.summary with
              | some s => some s
              | none => original.summary,
            description := match change.description with
              | some s => some s
              | none => original.description,
            location := match change.location with
              | some s => some s
              | none => original.location,
            startDateTime := targetStart,
            endDateTime := targetStart + duration,
            startTimeZone := truthyTz original.startTimeZone,
            endTimeZone := truthyTz original.endTimeZone,
            recurrence := new_recurrence }
          match remote.insertResult with
          | .error e => ([.updateOriginal new_rec], .error e)
          | .ok created =>
            ([.updateOriginal new_rec, .insertNew newBody],
             .ok (projectNewSeries calendarId created))
    | _, _ =>
      ([], .error (.valueError
        "update_following_instances only supports events with dateTime (not all-day)."))

/-- The `update_following_instances` tool (`src/server.py` lines 240-256):
the backend result or the error envelope, with the issued mutations kept
for observation. -/
def tool_update_following_instances (calendarId : String) (remote : SplitRemote)
    (targetStart : Int) (change : ChangePatch) (new_recurrence : List (List Char)) :
    List Mutation × Json :=
  let r := update_following_instances_model calendarId remote targetStart change new_recurrence
  (r.1, toolWrap r.2)

/-! ## The `create_event` tool surface (`src/server.py` lines 104-150). -/

/-- The named parameters of the `create_event` tool as registered on the
tool surface (the signature at `src/server.py` lines 115-126). -/
def create_event_tool_params : List String :=
  ["calendar", "summary", "start", "end", "time_zone", "description", "location",
   "reminders", "recurrence", "all_day"]

/-- The selected event fields `google_calendar.create_event` returns
(lines 264-277). -/
structure CreatedEventFields where
  id : Option String
  summary : Option String
  description : Option String
  startStr : Option String
  endStr : Option String
  timeZone : Option String
  location : Option String
  status : Option String
deriving DecidableEq

/-- The success envelope of `google_calendar.create_event`
(lines 264-277): `{"ok": true, "event": {...}}`. -/
def create_event_envelope (calendarId : String) (ev : CreatedEventFields) : Json :=
  .jobj [("ok", .jbool true),
         ("event", .jobj
           [("calendarId", .jstr calendarId),
            ("eventId", optStrJson ev.id),
            ("summary", optStrJson ev.summary),
            ("description", optStrJson ev.description),
            ("start", optStrJson ev.startStr),
            ("end", optStrJson ev.endStr),
            ("timeZone", optStrJson ev.timeZone),
            ("location", optStrJson ev.location),
            ("status", optStrJson ev.status)])]

/-- The `create_event` tool boundary (`src/server.py` lines 127-150): the
backend envelope on success, the error envelope on any exception. -/
def tool_create_event (backend : Except PyExc Json) : Json := toolWrap backend

/-! # Theorems -/

/-! ## Shared helper lemmas -/

theorem not_of_mem_splitOnP {α : Type} (p : α → Bool) (xs : List α) :
    ∀ l ∈ xs.splitOnP p, ∀ a ∈ l, p a = false := by
  induction xs with
  | nil =>
    intro l hl a ha
    simp only [List.splitOnP_nil, List.mem_singleton] at hl
    subst hl
    simp at ha
  | cons hd tl ih =>
    intro l hl a ha
    rw [List.splitOnP_cons] at hl
    by_cases hp : p hd
    · rw [if_pos hp] at hl
      rcases List.mem_cons.mp hl with h | h
      · subst h; simp at ha
      · exact ih l h a ha
    · rw [if_neg hp] at hl
      rcases hsp : tl.splitOnP p with _ | ⟨s0, rest⟩
      · exact absurd hsp (List.splitOnP_ne_nil p tl)
      · rw [hsp, List.modifyHead] at hl
        rcases List.mem_cons.mp hl with h | h
        · subst h
          rcases List.mem_cons.mp ha with h' | h'
          · subst h'
            exact Bool.eq_false_iff.mpr hp
          · exact ih s0 (by rw [hsp]; exact List.mem_cons_self s0 rest) a h'
        · exact ih l (by rw [hsp]; exact List.mem_cons_of_mem s0 h) a ha

theorem semicolon_not_mem_of_mem_splitOn (xs l : List Char)
    (h : l ∈ xs.splitOn ';') : ';' ∉ l := by
  intro hmem
  have := not_of_mem_splitOnP (fun c => c == ';') xs l h ';' hmem
  simp at this

theorem isPrefixOf_append_self (l t : List Char) : l.isPrefixOf (l ++ t) = true := by
  induction l with
  | nil => simp
  | cons a as ih => simp [List.isPrefixOf_cons₂, ih]

theorem digitChar_isDigit {n : Nat} (h : n < 10) : (digitChar n).isDigit = true := by
  interval_cases n <;> decide

theorem natToDigitsAux_isDigit :
    ∀ fuel n, n ≤ fuel ∨ n < 10 → ∀ c ∈ natToDigitsAux fuel n, c.isDigit = true := by
  intro fuel
  induction fuel with
  | zero =>
    intro n hn c hc
    have h10 : n < 10 := by omega
    simp only [natToDigitsAux, List.mem_singleton] at hc
    subst hc
    exact digitChar_isDigit h10
  | succ f ih =>
    intro n hn c hc
    rw [natToDigitsAux] at hc
    by_cases h10 : n < 10
    · rw [if_pos h10] at hc
      simp only [List.mem_singleton] at hc
      subst hc
      exact digitChar_isDigit h10
    · rw [if_neg h10] at hc
      rcases List.mem_append.mp hc with h | h
      · refine ih (n / 10) (Or.inl ?_) c h
        have : n / 10 < n := Nat.div_lt_self (by omega) (by omega)
        omega
      · simp only [List.mem_singleton] at h
        subst h
        exact digitChar_isDigit (Nat.mod_lt n (by omega))

theorem padNum_isDigit (w n : Nat) : ∀ c ∈ padNum w n, c.isDigit = true := by
  intro c hc
  rcases List.mem_append.mp hc with h | h
  · rw [List.eq_of_mem_replicate h]; decide
  · exact natToDigitsAux_isDigit n n (Or.inl le_rfl) c h

theorem formatCompactUTC_chars (t : Int) :
    ∀ c ∈ formatCompactUTC t, c.isDigit = true ∨ c = 'T' ∨ c = 'Z' := by
  intro c hc
  simp only [formatCompactUTC, List.append_assoc, List.mem_append, List.mem_singleton] at hc
  rcases hc with h | h | h | h | h | h | h | h
  all_goals first
    | (exact Or.inl (padNum_isDigit _ _ c h))
    | (subst h; simp)

theorem semicolon_not_mem_untilClause (t : Int) :
    ';' ∉ untilTag ++ formatUntil t := by
  intro h
  rcases List.mem_append.mp h with h | h
  · simp [untilTag] at h
  · rcases formatCompactUTC_chars (t - 1) ';' h with hd | hd | hd
    · simp at hd
    · exact absurd hd (by decide)
    · exact absurd hd (by decide)

theorem isUntilPart_untilClause (u : List Char) : isUntilPart (untilTag ++ u) = true := by
  unfold isUntilPart pyUpper
  rw [List.map_append]
  have h : List.map Char.toUpper untilTag = untilTag := by decide
  rw [h]
  exact isPrefixOf_append_self untilTag (List.map Char.toUpper u)

theorem isCountPart_untilClause (u : List Char) : isCountPart (untilTag ++ u) = false := by
  unfold isCountPart pyUpper
  rw [List.map_append]
  have h : List.map Char.toUpper untilTag = untilTag := by decide
  rw [h]
  have h2 : countTag = 'C' :: "OUNT=".data := rfl
  have h3 : untilTag = 'U' :: "NTIL=".data := rfl
  rw [h2, h3]
  simp [List.cons_append, List.isPrefixOf_cons₂]

theorem clausesOf_rewriteRRuleLine (t : Int) (line : List Char) :
    clausesOf (rewriteRRuleLine (formatUntil t) line) =
      (((pyStrip (line.drop rruleTag.length)).splitOn ';').filter (fun p => p ≠ [])).filter
        (fun p => !isUntilPart p && !isCountPart p) ++ [untilTag ++ formatUntil t] := by
  unfold clausesOf rewriteRRuleLine
  rw [List.drop_left]
  apply List.splitOn_intercalate
  · intro l hl
    rcases List.mem_append.mp hl with h | h
    · have h1 := List.mem_filter.mp h
      have h2 := List.mem_filter.mp h1.1
      exact semicolon_not_mem_of_mem_splitOn _ l h2.1
    · simp only [List.mem_singleton] at h
      subst h
      exact semicolon_not_mem_untilClause t
  · simp


theorem kept_countP_until (s : List Char) :
    List.countP isUntilPart
      (List.filter (fun p => !isUntilPart p && !isCountPart p)
        (List.filter (fun p => p ≠ []) (s.splitOn ';'))) = 0 := by
  rw [List.countP_eq_zero]
  intro a ha
  have h := (List.mem_filter.mp ha).2
  simp only [Bool.and_eq_true, Bool.not_eq_true'] at h
  simp [h.1]

theorem kept_countP_count (s : List Char) :
    List.countP isCountPart
      (List.filter (fun p => !isUntilPart p && !isCountPart p)
        (List.filter (fun p => p ≠ []) (s.splitOn ';'))) = 0 := by
  rw [List.countP_eq_zero]
  intro a ha
  have h := (List.mem_filter.mp ha).2
  simp only [Bool.and_eq_true, Bool.not_eq_true'] at h
  simp [h.2]

theorem rewriteRRuleLine_clause_counts (t : Int) (line : List Char) :
    (clausesOf (rewriteRRuleLine (formatUntil t) line)).countP isUntilPart = 1 ∧
    (clausesOf (rewriteRRuleLine (formatUntil t) line)).countP isCountPart = 0 ∧
    (untilTag ++ formatUntil t) ∈ clausesOf (rewriteRRuleLine (formatUntil t) line) := by
  rw [clausesOf_rewriteRRuleLine]
  refine ⟨?_, ?_, ?_⟩
  · rw [List.countP_append, kept_countP_until]
    simp [List.countP_cons, isUntilPart_untilClause]
  · rw [List.countP_append, kept_countP_count]
    simp [List.countP_cons, isCountPart_untilClause]
  · exact List.mem_append_right _ (List.mem_singleton.mpr rfl)

/-! ## C1 -/

/-- C1: for every recurrence list containing at least one `RRULE` line and
every parsed `splitStart` instant `t`, `update_following_instances` rewrites
each `RRULE` line (in particular the first) so that its clause list contains
exactly one `UNTIL=` clause, whose value is `t` minus one second in compact
UTC form, and no `COUNT=` clause; non-`RRULE` lines pass through unchanged;
and when no `RRULE` line exists the trim raises a `ValueError`. -/
theorem C1_rrule_rewrite (rec : List (List Char)) (t : Int) :
    (rec.any isRRuleLine = true →
      ∃ out, trimRecurrence (formatUntil t) rec = Except.ok out ∧
        out.length = rec.length ∧
        (∀ i : Fin rec.length, isRRuleLine (rec.get i) = false →
          out[(i : Nat)]? = some (rec.get i)) ∧
        (∀ i : Fin rec.length, isRRuleLine (rec.get i) = true →
          ∃ ln, out[(i : Nat)]? = some ln ∧
            (clausesOf ln).countP isUntilPart = 1 ∧
            (clausesOf ln).countP isCountPart = 0 ∧
            (untilTag ++ formatUntil t) ∈ clausesOf ln)) ∧
    (rec.any isRRuleLine = false →
      ∃ msg, trimRecurrence (formatUntil t) rec = Except.error msg) := by
  constructor
  · intro hany
    have hne : rec ≠ [] := by
      intro h
      subst h
      simp at hany
    refine ⟨rec.map (fun line =>
      if isRRuleLine line then rewriteRRuleLine (formatUntil t) line else line), ?_, ?_, ?_, ?_⟩
    · unfold trimRecurrence
      rw [if_neg hne, if_pos hany]
    · simp
    · intro i hir
      rw [List.get_eq_getElem] at hir ⊢
      rw [List.getElem?_map, List.getElem?_eq_getElem i.isLt]
      simp [hir]
    · intro i hir
      rw [List.get_eq_getElem] at hir
      refine ⟨rewriteRRuleLine (formatUntil t) rec[i.1], ?_, ?_, ?_, ?_⟩
      · rw [List.getElem?_map, List.getElem?_eq_getElem i.isLt]
        simp [hir]
      · exact (rewriteRRuleLine_clause_counts t rec[i.1]).1
      · exact (rewriteRRuleLine_clause_counts t rec[i.1]).2.1
      · exact (rewriteRRuleLine_clause_counts t rec[i.1]).2.2
  · intro hany
    by_cases hne : rec = []
    · subst hne
      exact ⟨_, rfl⟩
    · refine ⟨"Could not find RRULE in original recurrence.", ?_⟩
      unfold trimRecurrence
      rw [if_neg hne, if_neg (by simp [hany])]

/-- C1 witness: the rewrite property instantiated on the concrete series
`["RRULE:FREQ=WEEKLY;COUNT=5", "EXDATE:20240108T090000Z"]` split at
2024-01-01T09:00:00Z, and the error branch on a recurrence list with no
`RRULE` line. -/
theorem C1_rrule_rewrite_witness :
    (∃ out, trimRecurrence (formatUntil 1704099600)
        ["RRULE:FREQ=WEEKLY;COUNT=5".data, "EXDATE:20240108T090000Z".data] = Except.ok out ∧
      out.length = (["RRULE:FREQ=WEEKLY;COUNT=5".data, "EXDATE:20240108T090000Z".data] :
          List (List Char)).length ∧
      (∀ i : Fin (["RRULE:FREQ=WEEKLY;COUNT=5".data, "EXDATE:20240108T090000Z".data] :
          List (List Char)).length,
        isRRuleLine ((["RRULE:FREQ=WEEKLY;COUNT=5".data, "EXDATE:20240108T090000Z".data] :
          List (List Char)).get i) = false →
        out[(i : Nat)]? = some ((["RRULE:FREQ=WEEKLY;COUNT=5".data,
          "EXDATE:20240108T090000Z".data] : List (List Char)).get i)) ∧
      (∀ i : Fin (["RRULE:FREQ=WEEKLY;COUNT=5".data, "EXDATE:20240108T090000Z".data] :
          List (List Char)).length,
        isRRuleLine ((["RRULE:FREQ=WEEKLY;COUNT=5".data, "EXDATE:20240108T090000Z".data] :
          List (List Char)).get i) = true →
        ∃ ln, out[(i : Nat)]? = some ln ∧
          (clausesOf ln).countP isUntilPart = 1 ∧
          (clausesOf ln).countP isCountPart = 0 ∧
          (untilTag ++ formatUntil 1704099600) ∈ clausesOf ln)) ∧
    (∃ msg, trimRecurrence (formatUntil 1704099600) ["EXDATE:20240108T090000Z".data] =
      Except.error msg) :=
  ⟨(C1_rrule_rewrite ["RRULE:FREQ=WEEKLY;COUNT=5".data, "EXDATE:20240108T090000Z".data]
      1704099600).1 (by decide),
   (C1_rrule_rewrite ["EXDATE:20240108T090000Z".data] 1704099600).2 (by decide)⟩

/-! ## C2 -/

/-- C2 counterexample: with a transient 500 on every attempt, `_retry`
sleeps five times (1, 2, 4, 8 and again 8 after the fifth failed attempt)
and then falls through the loop, returning `None` instead of raising the
last error — contradicting the claimed four sleeps and final raise. -/
theorem C2_counterexample :
    pyRetry (fun _ => (Except.error (PyExc.httpError (some 500) none "boom") :
        Except PyExc Unit)) = ([1, 2, 4, 8, 8], RetryResult.exhausted) ∧
    (∀ e : PyExc, (RetryResult.exhausted : RetryResult Unit) ≠ RetryResult.raised e) ∧
    ([1, 2, 4, 8, 8] : List Nat) ≠ [1, 2, 4, 8] := by
  refine ⟨by decide, ?_, by decide⟩
  intro e h
  exact RetryResult.noConfusion h

/-- C2 (amended): when all five attempts fail with a transient `HttpError`
(429 or 5xx), `_retry` sleeps with exponential backoff after every failed
attempt including the fifth — 1, 2, 4, 8, 8 time units — and then falls
through the loop, returning `None` (no value) rather than raising the last
error. -/
theorem C2_retry_exhaustion {α : Type} (fn : Nat → Except PyExc α)
    (h : ∀ i, i < 5 → ∃ st d m, fn i = Except.error (PyExc.httpError st d m) ∧
      transientStatus st = true) :
    pyRetry fn = ([1, 2, 4, 8, 8], RetryResult.exhausted) := by
  obtain ⟨st0, d0, m0, he0, ht0⟩ := h 0 (by omega)
  obtain ⟨st1, d1, m1, he1, ht1⟩ := h 1 (by omega)
  obtain ⟨st2, d2, m2, he2, ht2⟩ := h 2 (by omega)
  obtain ⟨st3, d3, m3, he3, ht3⟩ := h 3 (by omega)
  obtain ⟨st4, d4, m4, he4, ht4⟩ := h 4 (by omega)
  simp [pyRetry, retryAux, he0, he1, he2, he3, he4, ht0, ht1, ht2, ht3, ht4]

/-- C2 witness: the amended exhaustion behavior at the concrete response
sequence `[500, 500, 500, 500, 500]`. -/
theorem C2_retry_exhaustion_witness :
    pyRetry (fun _ => (Except.error (PyExc.httpError (some 500) none "Internal Error") :
        Except PyExc Unit)) = ([1, 2, 4, 8, 8], RetryResult.exhausted) :=
  C2_retry_exhaustion (fun _ => Except.error (PyExc.httpError (some 500) none "Internal Error"))
    (fun _ _ => ⟨some 500, none, "Internal Error", rfl, by decide⟩)

/-! ## C3 -/

/-- C3 counterexample: after the trimming update of the original series
succeeds, a failing insert of the new series surfaces as the generic
envelope of the underlying exception (`type = "HttpError"`); no
`PartialFailureError` exists anywhere in the error model, so the failure is
not reported as a distinct partial-failure error. -/
theorem C3_counterexample :
    tool_update_following_instances "primary"
      { getResult := Except.ok
          { startDateTime := some 1704099600, endDateTime := some 1704103200,
            startTimeZone := none, endTimeZone := none,
            recurrence := ["RRULE:FREQ=DAILY".data],
            summary := some "Standup".data, description := none, location := none },
        updateResult := none,
        insertResult := Except.error (PyExc.httpError (some 503) (some "Backend Error") "503 err") }
      1704186000 { summary := none, description := none, location := none }
      ["RRULE:FREQ=DAILY".data] =
      ([Mutation.updateOriginal ["RRULE:FREQ=DAILY;UNTIL=20240102T085959Z".data]],
       error_response (PyExc.httpError (some 503) (some "Backend Error") "503 err")) ∧
    jLookup (error_response (PyExc.httpError (some 503) (some "Backend Error") "503 err")) "error" =
      some (Json.jobj [("type", Json.jstr "HttpError"), ("message", Json.jstr "Backend Error")]) ∧
    (∀ e : PyExc, className e ≠ "PartialFailureError") := by
  refine ⟨rfl, rfl, ?_⟩
  intro e
  cases e <;> simp [className]

/-- C3 (amended): when the fetch and the trimming update succeed and the
insert of the new series then raises `e`, the tool reports the generic
error envelope of `e` (type = `e`'s class name) while the original series
has already been mutated; no distinct partial-failure label is produced. -/
theorem C3_partial_failure_generic (cid : String) (orig : GcalEvent)
    (sdt edt t : Int) (change : ChangePatch) (newRec : List (List Char)) (e : PyExc)
    (rec' : List (List Char))
    (hs : orig.startDateTime = some sdt) (he : orig.endDateTime = some edt)
    (htrim : trimRecurrence (formatUntil t) orig.recurrence = Except.ok rec') :
    tool_update_following_instances cid
      { getResult := Except.ok orig, updateResult := none, insertResult := Except.error e }
      t change newRec =
      ([Mutation.updateOriginal rec'], error_response e) ∧
    jLookup (error_response e) "ok" = some (Json.jbool false) ∧
    jLookup (error_response e) "error" =
      some (Json.jobj [("type", Json.jstr (className e)),
                       ("message", Json.jstr (errMessage e))]) := by
  refine ⟨?_, rfl, rfl⟩
  unfold tool_update_following_instances update_following_instances_model
  simp [hs, he, htrim, toolWrap]

/-- C3 witness: the amended partial-failure behavior at a concrete split
whose insert fails with a quota `HttpError`. -/
theorem C3_partial_failure_generic_witness :
    tool_update_following_instances "primary"
      { getResult := Except.ok
          { startDateTime := some 1704099600, endDateTime := some 1704103200,
            startTimeZone := none, endTimeZone := none,
            recurrence := ["RRULE:FREQ=WEEKLY;COUNT=10".data],
            summary := some "Standup".data, description := none, location := none },
        updateResult := none,
        insertResult := Except.error (PyExc.httpError (some 429) none "rateLimitExceeded") }
      1704186000 { summary := some "New title".data, description := none, location := none }
      ["RRULE:FREQ=WEEKLY".data] =
      ([Mutation.updateOriginal ["RRULE:FREQ=WEEKLY;UNTIL=20240102T085959Z".data]],
       error_response (PyExc.httpError (some 429) none "rateLimitExceeded")) ∧
    jLookup (error_response (PyExc.httpError (some 429) none "rateLimitExceeded")) "ok" =
      some (Json.jbool false) ∧
    jLookup (error_response (PyExc.httpError (some 429) none "rateLimitExceeded")) "error" =
      some (Json.jobj [("type", Json.jstr (className (PyExc.httpError (some 429) none
            "rateLimitExceeded"))),
          ("message", Json.jstr (errMessage (PyExc.httpError (some 429) none
            "rateLimitExceeded")))]) :=
  C3_partial_failure_generic "primary" _ 1704099600 1704103200 1704186000 _ _ _
    ["RRULE:FREQ=WEEKLY;UNTIL=20240102T085959Z".data] rfl rfl rfl

/-! ## C4 -/

/-- C4: calendar resolution is total and never raises: an absent or empty
query returns `"primary"` with no remote call; a query the id-probe
confirms is returned unchanged; otherwise a case-insensitive match against
calendar ids or display names returns that calendar's id; and a query
matching nothing falls back to `"primary"`. -/
theorem C4_resolve_calendar_id (probe : List Char → Bool) (cals : List CalEntry) :
    resolve_calendar_id probe cals none = ("primary".data, 0, 0) ∧
    resolve_calendar_id probe cals (some []) = ("primary".data, 0, 0) ∧
    (∀ q, q ≠ [] → probe q = true →
      resolve_calendar_id probe cals (some q) = (q, 1, 0)) ∧
    (∀ q, q ≠ [] → probe q = false →
      (∃ c ∈ cals, calMatches (pyLower (pyStrip q)) c = true) →
      ∃ c, cals.find? (calMatches (pyLower (pyStrip q))) = some c ∧
        calMatches (pyLower (pyStrip q)) c = true ∧
        resolve_calendar_id probe cals (some q) = (c.id, 1, 1)) ∧
    (∀ q, q ≠ [] → probe q = false →
      (∀ c ∈ cals, calMatches (pyLower (pyStrip q)) c = false) →
      resolve_calendar_id probe cals (some q) = ("primary".data, 1, 1)) := by
  refine ⟨rfl, rfl, ?_, ?_, ?_⟩
  · intro q hq hp
    simp [resolve_calendar_id, hq, hp]
  · intro q hq hp hex
    have hsome : (cals.find? (calMatches (pyLower (pyStrip q)))).isSome := by
      rw [List.find?_isSome]
      obtain ⟨c, hc, hm⟩ := hex
      exact ⟨c, hc, hm⟩
    obtain ⟨c, hc⟩ := Option.isSome_iff_exists.mp hsome
    refine ⟨c, hc, List.find?_some hc, ?_⟩
    simp [resolve_calendar_id, hq, hp, hc]
  · intro q hq hp hnone
    have hfind : cals.find? (calMatches (pyLower (pyStrip q))) = none := by
      rw [List.find?_eq_none]
      intro c hc
      simp [hnone c hc]
    simp [resolve_calendar_id, hq, hp, hfind]

/-- C4 witness: the resolution behavior on the concrete calendar list
`[{id: "c1", summary: "Work"}]`: `None` resolves to `"primary"` with no
remote call, `"c1"` via the probe, `"Work"` and `"WORK"` via the
case-insensitive scan, `"nonexistent"` falls back to `"primary"`. -/
theorem C4_resolve_calendar_id_witness :
    resolve_calendar_id (fun q => q == "c1".data) [{ id := "c1".data, summary := some "Work".data }]
      none = ("primary".data, 0, 0) ∧
    resolve_calendar_id (fun q => q == "c1".data) [{ id := "c1".data, summary := some "Work".data }]
      (some "c1".data) = ("c1".data, 1, 0) ∧
    (∃ c, List.find? (calMatches (pyLower (pyStrip "Work".data)))
        [{ id := "c1".data, summary := some "Work".data }] = some c ∧
      calMatches (pyLower (pyStrip "Work".data)) c = true ∧
      resolve_calendar_id (fun q => q == "c1".data)
        [{ id := "c1".data, summary := some "Work".data }] (some "Work".data) = (c.id, 1, 1)) ∧
    (∃ c, List.find? (calMatches (pyLower (pyStrip "WORK".data)))
        [{ id := "c1".data, summary := some "Work".data }] = some c ∧
      calMatches (pyLower (pyStrip "WORK".data)) c = true ∧
      resolve_calendar_id (fun q => q == "c1".data)
        [{ id := "c1".data, summary := some "Work".data }] (some "WORK".data) = (c.id, 1, 1)) ∧
    resolve_calendar_id (fun q => q == "c1".data) [{ id := "c1".data, summary := some "Work".data }]
      (some "nonexistent".data) = ("primary".data, 1, 1) :=
  ⟨(C4_resolve_calendar_id (fun q => q == "c1".data)
      [{ id := "c1".data, summary := some "Work".data }]).1,
   (C4_resolve_calendar_id (fun q => q == "c1".data)
      [{ id := "c1".data, summary := some "Work".data }]).2.2.1 "c1".data (by decide) (by decide),
   (C4_resolve_calendar_id (fun q => q == "c1".data)
      [{ id := "c1".data, summary := some "Work".data }]).2.2.2.1 "Work".data (by decide)
      (by decide) ⟨{ id := "c1".data, summary := some "Work".data }, by decide, by decide⟩,
   (C4_resolve_calendar_id (fun q => q == "c1".data)
      [{ id := "c1".data, summary := some "Work".data }]).2.2.2.1 "WORK".data (by decide)
      (by decide) ⟨{ id := "c1".data, summary := some "Work".data }, by decide, by decide⟩,
   (C4_resolve_calendar_id (fun q => q == "c1".data)
      [{ id := "c1".data, summary := some "Work".data }]).2.2.2.2 "nonexistent".data (by decide)
      (by decide) (by decide)⟩

/-! ## C5 -/

/-- C5: in all-day event construction, when the end date is absent,
unparseable, or not after the start date, the constructed exclusive end is
`start + 1 day`; when the end date is after the start date it is passed
through unchanged. -/
theorem C5_allday_exclusive_end (tz : Option (List Char)) (sv : List Char)
    (ev : Option (List Char)) (s : Int)
    (hs : parseDateISO (extract_date sv) = some s) :
    (ev = none →
      time_payloads true tz sv ev =
        Except.ok (.date (formatDateISO s), .date (formatDateISO (s + 1)))) ∧
    (∀ es, ev = some es → parseDateISO (extract_date es) = none →
      time_payloads true tz sv ev =
        Except.ok (.date (formatDateISO s), .date (formatDateISO (s + 1)))) ∧
    (∀ es e, ev = some es → parseDateISO (extract_date es) = some e → e ≤ s →
      time_payloads true tz sv ev =
        Except.ok (.date (formatDateISO s), .date (formatDateISO (s + 1)))) ∧
    (∀ es e, ev = some es → parseDateISO (extract_date es) = some e → s < e →
      time_payloads true tz sv ev =
        Except.ok (.date (formatDateISO s), .date (formatDateISO e))) := by
  refine ⟨?_, ?_, ?_, ?_⟩
  · intro hev
    subst hev
    simp [time_payloads, hs]
  · intro es hev hpe
    subst hev
    simp [time_payloads, hs, hpe]
  · intro es e hev hpe hle
    subst hev
    simp [time_payloads, hs, hpe, hle]
  · intro es e hev hpe hlt
    subst hev
    simp [time_payloads, hs, hpe, Int.not_le.mpr hlt]

/-- C5 witness: the all-day end rule at start `2024-01-05`: an absent end,
the unparseable end `"soon"`, and the equal end `2024-01-05` all produce the
exclusive end `2024-01-06`; the later end `2024-01-09` passes through. -/
theorem C5_allday_exclusive_end_witness :
    time_payloads true none "2024-01-05".data none =
      Except.ok (.date (formatDateISO 19727), .date (formatDateISO (19727 + 1))) ∧
    time_payloads true none "2024-01-05".data (some "soon".data) =
      Except.ok (.date (formatDateISO 19727), .date (formatDateISO (19727 + 1))) ∧
    time_payloads true none "2024-01-05T10:00:00".data (some "2024-01-05".data) =
      Except.ok (.date (formatDateISO 19727), .date (formatDateISO (19727 + 1))) ∧
    time_payloads true none "2024-01-05".data (some "2024-01-09".data) =
      Except.ok (.date (formatDateISO 19727), .date (formatDateISO 19731)) :=
  ⟨(C5_allday_exclusive_end none "2024-01-05".data none 19727 (by decide)).1 rfl,
   (C5_allday_exclusive_end none "2024-01-05".data (some "soon".data) 19727 (by decide)).2.1
     "soon".data rfl (by decide),
   (C5_allday_exclusive_end none "2024-01-05T10:00:00".data (some "2024-01-05".data) 19727
     (by decide)).2.2.1 "2024-01-05".data 19727 rfl (by decide) (by decide),
   (C5_allday_exclusive_end none "2024-01-05".data (some "2024-01-09".data) 19727
     (by decide)).2.2.2 "2024-01-09".data 19731 rfl (by decide) (by decide)⟩

/-! ## C6 -/

/-- C6 counterexample: `_normalize_reminder_minutes` does not parse unit
suffixes: on the list `["2h", "60m", "90"]` every string item is skipped
and the result is `[]`, not `[60, 90, 120]`; a comma-separated string input
is rejected outright (`None`). -/
theorem C6_counterexample :
    normalize_reminder_minutes
      (RArg.rlist [RItem.rstr "2h".data, RItem.rstr "60m".data, RItem.rstr "90".data]) =
      some [] ∧
    some ([] : List Int) ≠ some [60, 90, 120] ∧
    normalize_reminder_minutes (RArg.rstrArg "2h,60m,90".data) = none := by
  refine ⟨by decide, by decide, by decide⟩

/-- C6 (amended): reminder-minute normalization accepts only a sequence:
any string input — comma-separated or not — yields `None`, and inside a
sequence every non-numeric item (including unit-suffixed strings such as
`"2h"`) is skipped without raising, so a list with no numeric item
normalizes to the empty list. -/
theorem C6_reminders_numeric_only (s : List Char) (xs : List RItem)
    (h : ∀ x ∈ xs, isNumericItem x = false) :
    normalize_reminder_minutes (RArg.rstrArg s) = none ∧
    normalize_reminder_minutes (RArg.rlist xs) = some [] := by
  refine ⟨rfl, ?_⟩
  have hnil : xs.filterMap (fun item =>
      match item with
      | RItem.rint n => if 0 ≤ n then some n else none
      | _ => none) = [] := by
    rw [List.filterMap_eq_nil_iff]
    intro x hx
    cases x with
    | rint n => exact absurd (h _ hx) (by simp [isNumericItem])
    | rstr s => rfl
    | rother => rfl
  simp [normalize_reminder_minutes, hnil, sortedSet, sortInts]

/-- C6 witness: the amended behavior at the comma-separated string
`"2h,60m,90"` and at the all-string list `["2h", "60m", "90"]`. -/
theorem C6_reminders_numeric_only_witness :
    normalize_reminder_minutes (RArg.rstrArg "2h,60m,90".data) = none ∧
    normalize_reminder_minutes
      (RArg.rlist [RItem.rstr "2h".data, RItem.rstr "60m".data, RItem.rstr "90".data]) =
      some [] :=
  C6_reminders_numeric_only "2h,60m,90".data
    [RItem.rstr "2h".data, RItem.rstr "60m".data, RItem.rstr "90".data] (by decide)

/-! ## C7 -/

/-- C7 counterexample: the `create_event` tool signature registers no
`attendees` parameter at all, so the operation cannot accept attendees in
any shape (and no attendee normalization exists to compare shapes). -/
theorem C7_counterexample : ("attendees" ∈ create_event_tool_params) = False := by
  simp [create_event_tool_params]

/-- C7 (amended): the `createEvent` tool accepts exactly the parameters
`calendar`, `summary`, `start`, `end`, `time_zone`, `description`,
`location`, `reminders`, `recurrence` and `all_day`; no `attendees`
parameter exists. -/
theorem C7_no_attendees_param : "attendees" ∉ create_event_tool_params := by
  decide

/-! ## C8 -/

/-- C8 counterexample: a successful `list_calendars` call returns
`{"calendars": [...]}` with no `"ok"` key at all, so not every operation's
success result contains `"ok": true`. -/
theorem C8_counterexample :
    tool_list_calendars (Except.ok []) = Json.jobj [("calendars", Json.jlist [])] ∧
    jLookup (tool_list_calendars (Except.ok [])) "ok" = none := ⟨rfl, rfl⟩

/-- C8 (amended): every tool failure is mapped — never re-raised — to the
uniform envelope `{"ok": false, "error": {"type": ..., "message": ...}}`;
on success, operations whose backend builds its own envelope (such as
`create_event`) carry `"ok": true`, but `list_calendars` returns only its
`calendars` field with no `ok` key. -/
theorem C8_envelope (e : PyExc) (cals : List Json) (cid : String)
    (ev : CreatedEventFields) :
    tool_list_calendars (Except.error e) = error_response e ∧
    tool_create_event (Except.error e) = error_response e ∧
    jLookup (error_response e) "ok" = some (Json.jbool false) ∧
    jLookup (error_response e) "error" =
      some (Json.jobj [("type", Json.jstr (className e)),
                       ("message", Json.jstr (errMessage e))]) ∧
    jLookup (tool_list_calendars (Except.ok cals)) "ok" = none ∧
    jLookup (tool_list_calendars (Except.ok cals)) "calendars" = some (Json.jlist cals) ∧
    jLookup (tool_create_event (Except.ok (create_event_envelope cid ev))) "ok" =
      some (Json.jbool true) :=
  ⟨rfl, rfl, rfl, rfl, rfl, rfl, rfl⟩

/-! ## C9 -/

theorem lookup_eq_none_of_keys_ne {β : Type} (k : String) (l : List (String × β))
    (h : ∀ p ∈ l, p.1 ≠ k) : l.lookup k = none := by
  induction l with
  | nil => rfl
  | cons a t ih =>
    cases a with
    | mk k' v =>
      rw [List.lookup_cons]
      have hk : (k == k') = false := by
        have := h (k', v) (List.mem_cons_self _ _)
        simp only [ne_eq] at this
        exact beq_eq_false_iff_ne.mpr (fun hkk => this hkk.symm)
      rw [hk]
      exact ih (fun p hp => h p (List.mem_cons_of_mem _ hp))

theorem segOf_keys (key : String) (v? : Option PVal) :
    ∀ p ∈ segOf key v?, p.1 = key := by
  cases v? <;> simp [segOf]

theorem timeSeg_keys (tz : PVal) (key : String) (v? : Option PVal)
    (l : List (String × PVal)) (h : timeSeg tz key v? = Except.ok l) :
    ∀ p ∈ l, p.1 = key := by
  cases v? with
  | none =>
    simp only [timeSeg] at h
    cases h
    simp
  | some v =>
    simp only [timeSeg] at h
    cases ht : timeField tz v with
    | error e =>
      rw [ht] at h
      simp [Except.map] at h
    | ok f =>
      rw [ht] at h
      simp only [Except.map, Except.ok.injEq] at h
      subst h
      simp

theorem cleanRecurrenceRules_eq_nil (xs : List PVal)
    (h : ∀ x ∈ xs, isNonBlankStr x = false) : cleanRecurrenceRules xs = [] := by
  rw [cleanRecurrenceRules, List.filterMap_eq_nil_iff]
  intro x hx
  cases x with
  | pstr s =>
    have hb := h _ hx
    simp only [isNonBlankStr, Bool.not_eq_false'] at hb
    simp [hb]
  | plist xs => rfl
  | pdict fs => rfl
  | pbool b => rfl
  | pnone => rfl
  | pother => rfl

/-- C9: when an `updateEvent` patch carries a `recurrence` list with no
non-blank string entry (such as `[]` or `[""]`), the constructed request
body contains no `recurrence` field at all, so the remote patch leaves the
event's recurrence unchanged — recurrence cannot be cleared through
`updateEvent`. -/
theorem C9_recurrence_not_clearable (patch : List (String × PVal)) (xs : List PVal)
    (b : List (String × PVal))
    (hr : patch.lookup "recurrence" = some (PVal.plist xs))
    (hblank : ∀ x ∈ xs, isNonBlankStr x = false)
    (hb : update_event_body patch = Except.ok b) :
    b.lookup "recurrence" = none := by
  have hclean := cleanRecurrenceRules_eq_nil xs hblank
  rw [update_event_body] at hb
  cases h5 : timeSeg (updateTz patch) "start" (patch.lookup "start") with
  | error e =>
    rw [h5] at hb
    simp [Bind.bind, Except.bind] at hb
  | ok s5 =>
    cases h6 : timeSeg (updateTz patch) "end" (patch.lookup "end") with
    | error e =>
      rw [h5, h6] at hb
      simp [Bind.bind, Except.bind] at hb
    | ok s6 =>
      rw [h5, h6] at hb
      simp only [Bind.bind, Except.bind, Pure.pure, Except.pure, Except.ok.injEq] at hb
      subst hb
      apply lookup_eq_none_of_keys_ne
      intro p hp
      simp only [List.append_assoc, List.mem_append] at hp
      rcases hp with h | h | h | h | h | h
      · rw [segOf_keys _ _ p h]; decide
      · rw [segOf_keys _ _ p h]; decide
      · rw [segOf_keys _ _ p h]; decide
      · rw [hr] at h
        simp only [recurrenceSeg, hclean] at h
        simp at h
      · rw [timeSeg_keys _ _ _ _ h5 p h]; decide
      · rw [timeSeg_keys _ _ _ _ h6 p h]; decide

/-- C9 witness: the patch `{"summary": "New title", "recurrence": [""],
"start": "2024-01-02T09:00:00"}` produces a body carrying `summary` and
`start` but no `recurrence` field. -/
theorem C9_recurrence_not_clearable_witness :
    List.lookup "recurrence"
      [("summary", PVal.pstr "New title".data),
       ("start", PVal.pdict [("dateTime", PVal.pstr "2024-01-02T09:00:00".data)])] = none :=
  C9_recurrence_not_clearable
    [("summary", PVal.pstr "New title".data), ("recurrence", PVal.plist [PVal.pstr "".data]),
     ("start", PVal.pstr "2024-01-02T09:00:00".data)]
    [PVal.pstr "".data]
    [("summary", PVal.pstr "New title".data),
     ("start", PVal.pdict [("dateTime", PVal.pstr "2024-01-02T09:00:00".data)])]
    rfl (by decide) rfl

/-! ## C10 -/

theorem cleanOverrides_popup (ms : List Int) :
    cleanOverrides (ms.map (fun m =>
        OvEntry.odict { method := some "popup".data, minutes := some m })) =
      ms.map (fun m => ({ method := "popup".data, minutes := m } : Override)) := by
  induction ms with
  | nil => rfl
  | cons m t ih =>
    have step : cleanOverrides (OvEntry.odict { method := some "popup".data, minutes := some m }
        :: (t.map (fun m => OvEntry.odict { method := some "popup".data, minutes := some m }))) =
        { method := "popup".data, minutes := m } ::
          cleanOverrides (t.map (fun m =>
            OvEntry.odict { method := some "popup".data, minutes := some m })) := rfl
    rw [List.map_cons, step, ih, List.map_cons]

/-- C10: every reminder override the `create_event` tool constructs from
its minutes list has method `"popup"`: whatever `reminders` argument the
tool receives, each override reaching the event body is a popup override —
no input can produce an `"email"` override through this tool. -/
theorem C10_overrides_all_popup (v : RArg) (o : Override)
    (ho : o ∈ createEvent_overrides v) : o.method = "popup".data := by
  cases hn : normalize_reminder_minutes v with
  | none =>
    have hsrv : server_create_reminders v = GRemArg.gnone := by
      unfold server_create_reminders
      rw [hn]
    unfold createEvent_overrides at ho
    rw [hsrv] at ho
    simp [gc_reminders_payload] at ho
  | some ms =>
    have hsrv : server_create_reminders v = GRemArg.gdict ⟨some false,
        if 0 < ms.length then some (GOverrides.glist (ms.map (fun m =>
          OvEntry.odict ⟨some "popup".data, some m⟩))) else none⟩ := by
      unfold server_create_reminders
      rw [hn]
    unfold createEvent_overrides at ho
    rw [hsrv] at ho
    by_cases hlen : 0 < ms.length
    · rw [if_pos hlen] at ho
      simp only [gc_reminders_payload, cleanOverrides_popup] at ho
      cases ms with
      | nil => exact absurd hlen (by simp)
      | cons m0 tms =>
        simp at ho
        rcases ho with rfl | ⟨m, hm, rfl⟩ <;> rfl
    · rw [if_neg hlen] at ho
      simp [gc_reminders_payload] at ho

/-- C10 witness: the override built from `reminders = [10, 5]` for minute
10 is a popup override, via the theorem applied at that input. -/
theorem C10_overrides_all_popup_witness :
    ({ method := "popup".data, minutes := 10 } : Override).method = "popup".data :=
  C10_overrides_all_popup (RArg.rlist [RItem.rint 10, RItem.rint 5])
    { method := "popup".data, minutes := 10 } (by decide)
